import Mathlib

/-!
Verification of the Grapnel hash-intelligence backend against its
natural-language specification.

The definitions below are a shallow embedding of the Python sources:
  app/services/notification_service.py  (dispatcher, queue processing)
  app/services/hash_service.py          (registration, cache-aside lookup)
  app/schemas/hash_schemas.py           (request validation / normalization)
  app/core/redis.py                     (rate-limit counters, cache ops)
  app/api/v1/endpoints/hashes.py        (admission control)
  app/core/config.py                    (settings)

Conventions: machine wall-clock timestamps are opaque strings supplied by
the environment; Redis time is a Nat number of seconds; fallible external
effects (cache failures, insert outcomes) are injected through explicit
environment values; floating point response fields (query_time) and the
always-None HashMatch fields (confidence_score, match_type) are omitted.
-/

namespace Grapnel

/-! ### Notification dispatcher (app/services/notification_service.py) -/

/-- Embeds the `match_data` dict as read by `_determine_notification_targets`
(lines 66-86): `.get` of an absent key yields `none`; `severity` defaults to
"medium" when absent. -/
structure MatchData where
  new_source_system : Option String
  existing_source_system : Option String
  severity : Option String
deriving DecidableEq

/-- The fixed partner set, `all_systems` at line 81. -/
def allSystems : List String := ["trace", "grapnel", "takedown"]

/-- One iteration of the broadcast loop at lines 82-84: append `sys` unless it
equals the new reporter or is already a target. Python compares a string with
a possibly-`None` value, so the guard is on `Option String`. -/
def addBroadcastTarget (newSource : Option String) (ts : List String) (sys : String) : List String :=
  if (some sys != newSource) && !(ts.contains sys) then ts ++ [sys] else ts

/-- `NotificationService._determine_notification_targets` (lines 66-86).
The existing source is appended when truthy (present and nonempty); on
severity "high"/"critical" the partner list is folded through the broadcast
guard. -/
def determineNotificationTargets (md : MatchData) : List String :=
  let targets : List String := []
  let targets :=
    match md.existing_source_system with
    | some es => if (es != "") && !(targets.contains es) then targets ++ [es] else targets
    | none => targets
  let severity := md.severity.getD "medium"
  if severity == "high" || severity == "critical" then
    allSystems.foldl (addBroadcastTarget md.new_source_system) targets
  else
    targets

/-- `settings.max_retry_attempts` (app/core/config.py line 30). -/
def maxRetryAttempts : Nat := 3

/-- A row of the `notification_queue` table, fields as in `_queue_notification`
(lines 90-99); `sent_at` is the nullable column of the schema. -/
structure QueueItem where
  id : String
  match_id : String
  target_system : String
  notification_type : String
  payload : String
  status : String
  created_at : String
  retry_count : Nat
  sent_at : Option String
deriving DecidableEq

/-- `NotificationService._queue_notification` (lines 88-109): the inserted row
is `pending` with `retry_count` 0 and no `sent_at` (the column defaults to
NULL). -/
def mkQueueNotification (rowId matchId target ty payload createdAt : String) : QueueItem :=
  { id := rowId, match_id := matchId, target_system := target,
    notification_type := ty, payload := payload, status := "pending",
    created_at := createdAt, retry_count := 0, sent_at := none }

/-- The per-item status update of `_process_notification_queue`
(lines 121-134): status is "sent" on success, otherwise "pending" with
`retry_count+1` while `retry_count < max_retry_attempts`, else "failed";
`sent_at` is written as the current time on success and NULL otherwise. -/
def processQueueItem (item : QueueItem) (success : Bool) (now : String) : QueueItem :=
  let firstStatus := if success then "sent" else "failed"
  let p :=
    if !success && item.retry_count < maxRetryAttempts then
      ("pending", item.retry_count + 1)
    else
      (firstStatus, item.retry_count)
  { item with
    status := p.1
    retry_count := p.2
    sent_at := if success then some now else none }

/-- One tick of the processor as seen by a single item: the query at line 115
selects only `pending` rows, so a non-pending item is untouched. -/
def processPass (item : QueueItem) (success : Bool) (now : String) : QueueItem :=
  if item.status == "pending" then processQueueItem item success now else item

/-- `n` consecutive processor passes in which every delivery attempt fails. -/
def applyFailedPasses (item : QueueItem) : Nat → QueueItem
  | 0 => item
  | n + 1 => applyFailedPasses (processPass item false "") n

/-- Outcome of the HTTP POST in `_send_webhook_notification` (lines 166-181):
either a response with some status code, a transport error (raised exception),
or no active subscription found for the target. -/
inductive DeliveryOutcome where
  | httpResponse (statusCode : Nat)
  | transportError
  | noSubscription
deriving DecidableEq

/-- The boolean result of `_send_webhook_notification`: line 177 returns
`response.status_code == 200`; an exception (line 179) or a missing
subscription (line 152) returns False. -/
def sendWebhookSuccess : DeliveryOutcome → Bool
  | .httpResponse code => code == 200
  | .transportError => false
  | .noSubscription => false

/-- The queue-item invariant of the data model: `sent_at` is set exactly on
`sent` items. -/
def sentAtInvariant (item : QueueItem) : Prop :=
  item.status = "sent" ↔ item.sent_at.isSome = true

/-! ### Rate limiting (app/core/redis.py, app/api/v1/endpoints/hashes.py)

Redis state is modelled as a list of live counters, each carrying the
absolute second at which it expires; a counter whose expiry is not in the
future is indistinguishable from an absent key (Redis removes it). The
pipeline in `increment_rate_limit` (INCR then EXPIRE, executed as one
MULTI/EXEC transaction) is one atomic step of the model. -/

structure CounterEntry where
  key : String
  count : Nat
  expireAt : Nat
deriving DecidableEq

abbrev CounterStore := List CounterEntry

/-- The live value of `key` at time `now`: present entries past their expiry
count as absent. -/
def getLive (st : CounterStore) (now : Nat) (key : String) : Option Nat :=
  match st.find? (fun e => e.key == key) with
  | some e => if now < e.expireAt then some e.count else none
  | none => none

/-- The stored expiry of `key`, if any entry exists. -/
def expiryOf (st : CounterStore) (key : String) : Option Nat :=
  (st.find? (fun e => e.key == key)).map (fun e => e.expireAt)

/-- Replace the entry for `key`. -/
def setEntry (st : CounterStore) (key : String) (count expireAt : Nat) : CounterStore :=
  { key := key, count := count, expireAt := expireAt } :: st.filter (fun e => !(e.key == key))

/-- `RedisManager.increment_rate_limit` (app/core/redis.py lines 75-85):
prefixes the identifier with "rate_limit:", INCRs the key (1 when absent or
expired) and EXPIREs it to `window` seconds from now — on every call, not
only the first — returning the incremented count. -/
def incrementRateLimit (st : CounterStore) (now : Nat) (identifier : String) (window : Nat := 60) : CounterStore × Nat :=
  let key := "rate_limit:" ++ identifier
  let newCount :=
    match getLive st now key with
    | some c => c + 1
    | none => 1
  (setEntry st key newCount (now + window), newCount)

structure AdmissionResult where
  store : CounterStore
  count : Nat
  limited : Bool
deriving DecidableEq

/-- The admission check of `lookup_hashes` (app/api/v1/endpoints/hashes.py
lines 26-34): the identifier passed down is already "rate_limit:" + system,
and HTTP 429 is raised when the incremented count exceeds 100. -/
def lookupAdmission (st : CounterStore) (now : Nat) (sourceSystem : String) : AdmissionResult :=
  let r := incrementRateLimit st now ("rate_limit:" ++ sourceSystem) 60
  { store := r.1, count := r.2, limited := 100 < r.2 }

/-- The admission check of `register_hashes` (lines 65-73): same identifier
construction as the lookup path, HTTP 429 when the count exceeds 50. -/
def registerAdmission (st : CounterStore) (now : Nat) (sourceSystem : String) : AdmissionResult :=
  let r := incrementRateLimit st now ("rate_limit:" ++ sourceSystem) 60
  { store := r.1, count := r.2, limited := 50 < r.2 }

/-- `n` successive admitted lookup calls by `sourceSystem`, all at time `now`. -/
def applyLookupAdmissions : Nat → CounterStore → Nat → String → CounterStore
  | 0, st, _, _ => st
  | n + 1, st, now, s => applyLookupAdmissions n (lookupAdmission st now s).store now s

/-! ### Hash registration and lookup (app/services/hash_service.py,
app/schemas/hash_schemas.py) -/

/-- A row of `hash_registry` as built in `_create_new_hash_entry`
(lines 123-133). `tags` defaults to [] and `metadata` to an empty map. -/
structure HashRecord where
  id : String
  hash_value : String
  hash_type : String
  source_system : String
  source_id : String
  severity_level : String
  tags : List String
  metadata : List (String × String)
  created_at : String
deriving DecidableEq

/-- One aggregated source entry of a lookup result (lines 65-78): the
`metadata` key is present only when requested and nonempty, the `tags` key
only when nonempty. -/
structure SourceEntry where
  system : String
  id : String
  severity : String
  timestamp : String
  metadata : Option (List (String × String))
  tags : Option (List String)
deriving DecidableEq

/-- `HashMatch` (app/schemas/hash_schemas.py lines 52-57); the always-None
`confidence_score` and `match_type` fields are omitted. -/
structure HashMatch where
  hash : String
  found : Bool
  sources : List SourceEntry
deriving DecidableEq

/-- `HashLookupResponse` (lines 59-63) minus the wall-clock `query_time`;
the source field named after the match list is `matchResults` here because
its Python name collides with a Lean keyword. -/
structure HashLookupResponse where
  matchResults : List HashMatch
  total_matches : Nat
  cached : Bool
deriving DecidableEq

/-- `HashRegisterResponse` (lines 65-69). -/
structure HashRegisterResponse where
  success : Bool
  registered_count : Nat
  errors : List String
  hash_ids : List String
deriving DecidableEq

/-- The normalization applied by both request validators (lines 31-34 and
41-50): strip surrounding whitespace, lower-case. Embedded directly on the
character list (drop whitespace from both ends, lower-case each character). -/
def cleanHash (s : String) : String :=
  String.mk (((s.data.dropWhile Char.isWhitespace).reverse.dropWhile
    Char.isWhitespace).reverse.map Char.toLower)

/-- A validated `HashRegisterRequest` (lines 23-34): `hash_value` already
holds the validator's output `v.strip().lower()`. -/
structure HashRegisterRequest where
  hash_value : String
  hash_type : String
  source_id : String
  severity : String
  tags : List String
  metadata : List (String × String)
deriving DecidableEq

/-- Admission of a raw `hash_value` into `HashRegisterRequest`: the pydantic
Field length bounds 8..64 are checked on the raw input, after which the
validator replaces it with its cleaned form. -/
def validateRegisterValue (raw : String) : Option String :=
  if 8 ≤ raw.length && raw.length ≤ 64 then some (cleanHash raw) else none

/-- `HashLookupRequest.validate_hashes` on a single element (lines 41-50):
clean first, then require the cleaned length in 8..64. -/
def validateLookupHash (raw : String) : Option String :=
  if 8 ≤ (cleanHash raw).length && (cleanHash raw).length ≤ 64 then some (cleanHash raw)
  else none

/-- The accumulation loop of `validate_hashes`: clean every element, raising
(None) on the first invalid one. -/
def validateLookupHashes : List String → Option (List String)
  | [] => some []
  | r :: rs =>
    match validateLookupHash r with
    | some c => (validateLookupHashes rs).map (fun cs => c :: cs)
    | none => none

/-- `HashLookupRequest.hashes` admission: 1..100 items, each cleaned and
length-checked; any bad element rejects the whole request. -/
def validateLookupRequest (raws : List String) : Option (List String) :=
  if 1 ≤ raws.length && raws.length ≤ 100 then validateLookupHashes raws
  else none

/-- The lookup-cache key `hash_lookup:` + value used by `cache_hash_lookup`,
`get_cached_hash_lookup` (app/core/redis.py lines 65-73) and the invalidation
at hash_service.py line 106. -/
def hashLookupKey (hv : String) : String := "hash_lookup:" ++ hv

/-- The lookup cache: cached `HashMatch` results keyed by `hashLookupKey`. -/
abbrev CacheState := List (String × HashMatch)

def getCache (c : CacheState) (key : String) : Option HashMatch :=
  (c.find? (fun e => e.1 == key)).map (fun e => e.2)

def setCache (c : CacheState) (key : String) (m : HashMatch) : CacheState :=
  (key, m) :: c.filter (fun e => !(e.1 == key))

def deleteCache (c : CacheState) (key : String) : CacheState :=
  c.filter (fun e => !(e.1 == key))

/-- The source entry built for one registry row (hash_service.py
lines 65-78). -/
def mkSourceEntry (includeMetadata : Bool) (r : HashRecord) : SourceEntry :=
  { system := r.source_system
    id := r.source_id
    severity := r.severity_level
    timestamp := r.created_at
    metadata := if includeMetadata && !r.metadata.isEmpty then some r.metadata else none
    tags := if !r.tags.isEmpty then some r.tags else none }

/-- `HashService._query_hash_from_db` (lines 52-88): select every row whose
`hash_value` equals the (already normalized) query value; absent rows give
found=false, otherwise all rows are aggregated into `sources`. -/
def queryHashFromDb (db : List HashRecord) (includeMetadata : Bool) (hv : String) : HashMatch :=
  let rows := db.filter (fun r => r.hash_value == hv)
  if rows.isEmpty then { hash := hv, found := false, sources := [] }
  else { hash := hv, found := true, sources := rows.map (mkSourceEntry includeMetadata) }

/-- Cache behaviour injected for one hash of a lookup: whether the cache read
(line 26) or the cache write (line 39) raises. -/
structure LookupEnv where
  getFails : Bool
  setFails : Bool

/-- The all-succeeding cache environment. -/
def noFail : Nat → LookupEnv := fun _ => { getFails := false, setFails := false }

/-- The loop body of `HashService.lookup_hashes` (lines 24-41), threading the
cache, the accumulated matches and the cached-hit count. A raising cache call
propagates out of the service (there is no try/except around it), which the
endpoint surfaces as HTTP 500. -/
def lookupGo (db : List HashRecord) (includeMetadata : Bool) (env : Nat → LookupEnv) :
    List String → Nat → CacheState → List HashMatch → Nat →
    Except String (CacheState × List HashMatch × Nat)
  | [], _, cache, acc, cachedCount => .ok (cache, acc, cachedCount)
  | hv :: rest, i, cache, acc, cachedCount =>
    if (env i).getFails then .error "cache get failed"
    else
      match getCache cache (hashLookupKey hv) with
      | some m => lookupGo db includeMetadata env rest (i + 1) cache (acc ++ [m]) (cachedCount + 1)
      | none =>
        let m := queryHashFromDb db includeMetadata hv
        if (env i).setFails then .error "cache set failed"
        else lookupGo db includeMetadata env rest (i + 1)
          (setCache cache (hashLookupKey hv) m) (acc ++ [m]) cachedCount

/-- `HashService.lookup_hashes` (lines 18-50) on validated hashes:
total_matches counts found matches, cached reports whether any hash was
served from cache. -/
def lookupHashes (db : List HashRecord) (cache : CacheState) (includeMetadata : Bool)
    (env : Nat → LookupEnv) (hashes : List String) :
    Except String (CacheState × HashLookupResponse) :=
  (lookupGo db includeMetadata env hashes 0 cache [] 0).map (fun r =>
    (r.1, { matchResults := r.2.1
            total_matches := (r.2.1.filter (fun m => m.found)).length
            cached := 0 < r.2.2 }))

/-- The lookup endpoint after admission (app/api/v1/endpoints/hashes.py
lines 36-44): request validation, then the service call. -/
def lookupEndpoint (db : List HashRecord) (cache : CacheState) (includeMetadata : Bool)
    (env : Nat → LookupEnv) (raws : List String) :
    Option (Except String (CacheState × HashLookupResponse)) :=
  (validateLookupRequest raws).map (lookupHashes db cache includeMetadata env)

/-- The first match of a failure-free lookup of a single raw hash value. -/
def lookupFirstMatch (db : List HashRecord) (cache : CacheState) (includeMetadata : Bool)
    (raw : String) : Option HashMatch :=
  match lookupEndpoint db cache includeMetadata noFail [raw] with
  | some (.ok r) => r.2.matchResults.head?
  | _ => none

/-- Environment of one record's registration: the generated uuid, the
wall-clock timestamp, what the store's insert does, and whether the cache
invalidation raises. -/
inductive InsertOutcome where
  | ok
  | noData
  | dbError
deriving DecidableEq

structure RecordEnv where
  hashId : String
  createdAt : String
  outcome : InsertOutcome
  delFails : Bool

/-- The row built by `_create_new_hash_entry` (lines 121-133). -/
def mkHashRecord (req : HashRegisterRequest) (src : String) (env : RecordEnv) : HashRecord :=
  { id := env.hashId
    hash_value := req.hash_value
    hash_type := req.hash_type
    source_system := src
    source_id := req.source_id
    severity_level := req.severity
    tags := req.tags
    metadata := req.metadata
    created_at := env.createdAt }

/-- `HashService._create_new_hash_entry` (lines 119-143): returns the new id
when the insert yields data; an insert returning no data, or an insert that
raises (caught at line 141), returns None. -/
def createNewHashEntry (db : List HashRecord) (req : HashRegisterRequest) (src : String)
    (env : RecordEnv) : List HashRecord × Option String :=
  match env.outcome with
  | .ok => (db ++ [mkHashRecord req src env], some env.hashId)
  | .noData => (db, none)
  | .dbError => (db, none)

/-- The error string appended at lines 109-110; the exception text of the
raising cache delete is abstracted to a fixed message. -/
def registerErrorMsg (hv : String) : String :=
  "Failed to register hash " ++ hv ++ ": cache delete failed"

/-- State threaded through `HashService.register_hashes` (lines 90-117). -/
structure RegState where
  db : List HashRecord
  cache : CacheState
  registered_count : Nat
  errors : List String
  hash_ids : List String
deriving DecidableEq

/-- The loop body of `register_hashes` (lines 96-110): on a returned id the
record is counted and its id appended before the cache invalidation runs;
a raising invalidation is caught by the per-record handler and recorded as
an error; a None id is skipped silently. -/
def registerStep (src : String) (st : RegState) (item : HashRegisterRequest × RecordEnv) : RegState :=
  let r := createNewHashEntry st.db item.1 src item.2
  match r.2 with
  | some newId =>
    let st2 := { st with
      db := r.1
      hash_ids := st.hash_ids ++ [newId]
      registered_count := st.registered_count + 1 }
    if item.2.delFails then
      { st2 with errors := st2.errors ++ [registerErrorMsg item.1.hash_value] }
    else
      { st2 with cache := deleteCache st2.cache (hashLookupKey item.1.hash_value) }
  | none => { st with db := r.1 }

/-- `HashService.register_hashes` (lines 90-117): fold the loop body over the
batch and assemble the response; success is reported exactly when no error
was recorded. -/
def registerHashes (src : String) (db : List HashRecord) (cache : CacheState)
    (items : List (HashRegisterRequest × RecordEnv)) : RegState × HashRegisterResponse :=
  let st := items.foldl (registerStep src)
    { db := db, cache := cache, registered_count := 0, errors := [], hash_ids := [] }
  (st, { success := st.errors.isEmpty
         registered_count := st.registered_count
         errors := st.errors
         hash_ids := st.hash_ids })

/-- The records of a batch whose insert yields data: exactly these are
registered. -/
def okItems (items : List (HashRegisterRequest × RecordEnv)) :
    List (HashRegisterRequest × RecordEnv) :=
  items.filter (fun it => it.2.outcome == InsertOutcome.ok)

/-- The records of a batch that produce an error entry: those whose insert
yields data but whose cache invalidation raises. -/
def errorItems (items : List (HashRegisterRequest × RecordEnv)) :
    List (HashRegisterRequest × RecordEnv) :=
  items.filter (fun it => (it.2.outcome == InsertOutcome.ok) && it.2.delFails)

/-! ### Theorems -/

/-- C4: the two concrete fan-out scenarios. Severity "critical" with reporter
"trace" and existing source "grapnel" targets exactly ["grapnel", "takedown"];
severity "low" with the same sources targets exactly ["grapnel"]. -/
theorem c4_fanout_scenarios :
    determineNotificationTargets
      { new_source_system := some "trace", existing_source_system := some "grapnel",
        severity := some "critical" } = ["grapnel", "takedown"]
    ∧ determineNotificationTargets
      { new_source_system := some "trace", existing_source_system := some "grapnel",
        severity := some "low" } = ["grapnel"] := by
  decide

/-- C1 counterexample: a fresh queue item (status "pending", retry_count 0)
that fails delivery on 3 consecutive processor passes is still "pending" with
retry_count 3 — not "failed" as the claim states; only a 4th failure moves it
to "failed". -/
theorem c1_counterexample :
    (applyFailedPasses
      { id := "n1", match_id := "m1", target_system := "grapnel",
        notification_type := "hash_match", payload := "p", status := "pending",
        created_at := "t0", retry_count := 0, sent_at := none } 3).status = "pending"
    ∧ (applyFailedPasses
      { id := "n1", match_id := "m1", target_system := "grapnel",
        notification_type := "hash_match", payload := "p", status := "pending",
        created_at := "t0", retry_count := 0, sent_at := none } 3).retry_count = 3
    ∧ (applyFailedPasses
      { id := "n1", match_id := "m1", target_system := "grapnel",
        notification_type := "hash_match", payload := "p", status := "pending",
        created_at := "t0", retry_count := 0, sent_at := none } 3).status ≠ "failed" := by
  decide

/-- C1 (amended): a queue item starting pending with retry_count 0 is, after 3
consecutive failed attempts, still pending with retry_count 3 and sent_at
null; the 4th consecutive failure lands it in status "failed" with
retry_count 3 and sent_at null. -/
theorem c1_retry_exhaustion (item : QueueItem) (h1 : item.status = "pending")
    (h2 : item.retry_count = 0) :
    (applyFailedPasses item 3).status = "pending"
    ∧ (applyFailedPasses item 3).retry_count = 3
    ∧ (applyFailedPasses item 3).sent_at = none
    ∧ (applyFailedPasses item 4).status = "failed"
    ∧ (applyFailedPasses item 4).retry_count = 3
    ∧ (applyFailedPasses item 4).sent_at = none := by
  obtain ⟨i, mi, ts, ty, pl, st, ca, rc, sa⟩ := item
  simp only at h1 h2
  subst h1
  subst h2
  simp [applyFailedPasses, processPass, processQueueItem, maxRetryAttempts]

/-- C1 witness: the amended statement evaluated on a concrete fresh item. -/
theorem c1_retry_exhaustion_witness :
    (applyFailedPasses
      { id := "n2", match_id := "m2", target_system := "trace",
        notification_type := "hash_match", payload := "q", status := "pending",
        created_at := "t1", retry_count := 0, sent_at := none } 4).status = "failed"
    ∧ (applyFailedPasses
      { id := "n2", match_id := "m2", target_system := "trace",
        notification_type := "hash_match", payload := "q", status := "pending",
        created_at := "t1", retry_count := 0, sent_at := none } 4).retry_count = 3 := by
  have h := c1_retry_exhaustion
    { id := "n2", match_id := "m2", target_system := "trace",
      notification_type := "hash_match", payload := "q", status := "pending",
      created_at := "t1", retry_count := 0, sent_at := none } rfl rfl
  exact ⟨h.2.2.2.1, h.2.2.2.2.1⟩

/-- C3 counterexample: an HTTP 201 response — a 2xx status — is counted as a
failure: the webhook sender reports False and a fresh item goes back to
"pending" instead of "sent". -/
theorem c3_counterexample :
    sendWebhookSuccess (DeliveryOutcome.httpResponse 201) = false
    ∧ (processQueueItem
        { id := "n3", match_id := "m3", target_system := "takedown",
          notification_type := "hash_match", payload := "r", status := "pending",
          created_at := "t2", retry_count := 0, sent_at := none }
        (sendWebhookSuccess (DeliveryOutcome.httpResponse 201)) "t3").status = "pending"
    ∧ (processQueueItem
        { id := "n3", match_id := "m3", target_system := "takedown",
          notification_type := "hash_match", payload := "r", status := "pending",
          created_at := "t2", retry_count := 0, sent_at := none }
        (sendWebhookSuccess (DeliveryOutcome.httpResponse 201)) "t3").sent_at = none := by
  decide

/-- C3 (amended): a delivery attempt succeeds — the item transitions to
status "sent" with sent_at set — exactly when the HTTP POST returns status
200; every other status code (including other 2xx codes), transport error or
missing subscription counts as a failure. -/
theorem c3_success_criterion (item : QueueItem) (now : String) (o : DeliveryOutcome) :
    (sendWebhookSuccess o = true ↔ o = DeliveryOutcome.httpResponse 200)
    ∧ ((processQueueItem item (sendWebhookSuccess o) now).status = "sent"
        ↔ o = DeliveryOutcome.httpResponse 200)
    ∧ ((processQueueItem item (sendWebhookSuccess o) now).sent_at = some now
        ↔ o = DeliveryOutcome.httpResponse 200) := by
  have h1 : sendWebhookSuccess o = true ↔ o = DeliveryOutcome.httpResponse 200 := by
    cases o <;> simp [sendWebhookSuccess]
  refine ⟨h1, ?_, ?_⟩
  · by_cases h : o = DeliveryOutcome.httpResponse 200
    · rw [h1.mpr h] at *
      simp [processQueueItem, h]
    · have hf : sendWebhookSuccess o = false := by
        cases hs : sendWebhookSuccess o
        · rfl
        · exact absurd (h1.mp hs) h
      rw [hf]
      simp only [processQueueItem]
      constructor
      · intro hc
        exfalso
        revert hc
        split <;> simp
      · intro hc
        exact absurd hc h
  · by_cases h : o = DeliveryOutcome.httpResponse 200
    · rw [h1.mpr h] at *
      simp [processQueueItem, h]
    · have hf : sendWebhookSuccess o = false := by
        cases hs : sendWebhookSuccess o
        · rfl
        · exact absurd (h1.mp hs) h
      rw [hf]
      simp only [processQueueItem]
      constructor
      · intro hc
        simp at hc
      · intro hc
        exact absurd hc h

/-- Helper for C10: the processor's status update always leaves the item with
sent_at populated exactly when its status is "sent". -/
theorem processQueueItem_sentAtInvariant (item : QueueItem) (success : Bool) (now : String) :
    sentAtInvariant (processQueueItem item success now) := by
  cases success <;>
    simp only [sentAtInvariant, processQueueItem] <;>
    split <;> simp_all

/-- C10: every operation of the notification service maintains the invariant
that sent_at is set exactly on status "sent": freshly queued items are
pending with sent_at null, every processed item leaves the update with the
invariant, and a processor pass (which skips non-pending rows) preserves it. -/
theorem c10_sent_at_invariant :
    (∀ rowId matchId target ty payload createdAt,
        sentAtInvariant (mkQueueNotification rowId matchId target ty payload createdAt))
    ∧ (∀ item success now, sentAtInvariant (processQueueItem item success now))
    ∧ (∀ item success now, sentAtInvariant item →
        sentAtInvariant (processPass item success now)) := by
  refine ⟨?_, processQueueItem_sentAtInvariant, ?_⟩
  · intro rowId matchId target ty payload createdAt
    simp [mkQueueNotification, sentAtInvariant]
  · intro item success now h
    unfold processPass
    split
    · exact processQueueItem_sentAtInvariant item success now
    · exact h

/-- C10 witness: the preservation clause applied to a concrete sent item that
a later pass leaves untouched. -/
theorem c10_sent_at_invariant_witness :
    sentAtInvariant (processPass
      { id := "n4", match_id := "m4", target_system := "grapnel",
        notification_type := "hash_match", payload := "s", status := "sent",
        created_at := "t4", retry_count := 0, sent_at := some "t5" } false "t6") :=
  c10_sent_at_invariant.2.2
    { id := "n4", match_id := "m4", target_system := "grapnel",
      notification_type := "hash_match", payload := "s", status := "sent",
      created_at := "t4", retry_count := 0, sent_at := some "t5" } false "t6"
    (by simp [sentAtInvariant])

/-- Helper: anything the broadcast fold adds on top of the initial targets is
a partner system different from the new reporter. -/
theorem mem_foldl_addBroadcastTarget (ns : Option String) (x : String) :
    ∀ (l ts : List String), x ∈ l.foldl (addBroadcastTarget ns) ts →
      x ∈ ts ∨ (x ∈ l ∧ some x ≠ ns) := by
  intro l
  induction l with
  | nil => intro ts h; exact Or.inl h
  | cons a l ih =>
    intro ts h
    rcases ih (addBroadcastTarget ns ts a) h with h1 | h2
    · unfold addBroadcastTarget at h1
      split at h1
      · rename_i hguard
        rcases List.mem_append.mp h1 with hts | ha
        · exact Or.inl hts
        · have hxa : x = a := by simpa using ha
          subst hxa
          have hne : some x ≠ ns := by
            have := (Bool.and_eq_true _ _).mp hguard
            simpa [bne_iff_ne] using this.1
          exact Or.inr ⟨List.mem_cons_self x l, hne⟩
      · exact Or.inl h1
    · exact Or.inr ⟨List.mem_cons_of_mem a h2.1, h2.2⟩

/-- Helper: the broadcast fold never removes a target. -/
theorem subset_foldl_addBroadcastTarget (ns : Option String) (x : String) :
    ∀ (l ts : List String), x ∈ ts → x ∈ l.foldl (addBroadcastTarget ns) ts := by
  intro l
  induction l with
  | nil => intro ts h; exact h
  | cons a l ih =>
    intro ts h
    apply ih
    unfold addBroadcastTarget
    split
    · exact List.mem_append_left _ h
    · exact h

/-- C2 counterexample: for a low-severity match event whose existing source
equals the new reporter, the reporter itself is computed as a target — the
claim that the new reporting system is never among the targets fails. -/
theorem c2_counterexample :
    determineNotificationTargets
      { new_source_system := some "trace", existing_source_system := some "trace",
        severity := some "low" } = ["trace"]
    ∧ "trace" ∈ determineNotificationTargets
      { new_source_system := some "trace", existing_source_system := some "trace",
        severity := some "low" } := by
  decide

/-- C2 (amended): the broadcast additions exclude the new reporter, so the
new reporter appears among the targets only when it equals the existing
source system; and the existing source system is targeted whenever it is
present and nonempty — including when it equals the new reporter. -/
theorem c2_target_exclusion (md : MatchData) :
    (∀ n, md.new_source_system = some n →
        n ∈ determineNotificationTargets md → md.existing_source_system = some n)
    ∧ (∀ es, md.existing_source_system = some es → es ≠ "" →
        es ∈ determineNotificationTargets md) := by
  obtain ⟨ns, ex, sev⟩ := md
  constructor
  · intro n hn hmem
    simp only at hn
    subst hn
    unfold determineNotificationTargets at hmem
    simp only at hmem
    cases ex with
    | none =>
      split at hmem
      · rcases mem_foldl_addBroadcastTarget (some n) n _ _ hmem with h1 | h2
        · simp at h1
        · exact absurd rfl h2.2
      · simp at hmem
    | some es =>
      have hbase : ∀ x : String,
          x ∈ (if (es != "") && !(List.contains [] es) then
            ([] : List String) ++ [es] else []) → x = es := by
        intro x hx
        split at hx
        · simpa using hx
        · simp at hx
      split at hmem
      · rcases mem_foldl_addBroadcastTarget (some n) n _ _ hmem with h1 | h2
        · have := hbase n h1
          subst this
          rfl
        · exact absurd rfl h2.2
      · have := hbase n hmem
        subst this
        rfl
  · intro es hex hne
    simp only at hex
    subst hex
    unfold determineNotificationTargets
    simp only
    have hbase : es ∈ (if (es != "") && !(List.contains [] es) then
        ([] : List String) ++ [es] else []) := by
      have : (es != "") = true := by simpa [bne_iff_ne] using hne
      simp [this]
    split
    · exact subset_foldl_addBroadcastTarget ns es _ _ hbase
    · exact hbase

/-- C2 witness: the amended statement evaluated on a concrete critical match
event, showing the reporter-equality clause and the existing-source clause. -/
theorem c2_target_exclusion_witness :
    "grapnel" ∈ determineNotificationTargets
      { new_source_system := some "trace", existing_source_system := some "grapnel",
        severity := some "critical" } :=
  (c2_target_exclusion
    { new_source_system := some "trace", existing_source_system := some "grapnel",
      severity := some "critical" }).2 "grapnel" rfl (by decide)

/-- C5 counterexample: starting from an empty store, the system "trace"
performs 50 admitted lookups and zero registrations; its very first
registration call is then rejected with HTTP 429 (count 51 > 50), although it
has not exceeded 50 registrations — lookups and registrations share one
counter. -/
theorem c5_counterexample :
    (registerAdmission (applyLookupAdmissions 50 [] 0 "trace") 0 "trace").limited = true
    ∧ (registerAdmission (applyLookupAdmissions 50 [] 0 "trace") 0 "trace").count = 51 := by
  decide

/-- C5 (amended): the lookup and registration admissions of one source system
increment the very same counter — they produce identical stores and counts —
and each returns HTTP 429 exactly when that shared count exceeds its own
threshold (100 for lookups, 50 for registrations). -/
theorem c5_shared_rate_counter (st : CounterStore) (now : Nat) (s : String) :
    (lookupAdmission st now s).store = (registerAdmission st now s).store
    ∧ (lookupAdmission st now s).count = (registerAdmission st now s).count
    ∧ ((lookupAdmission st now s).limited = true ↔ 100 < (lookupAdmission st now s).count)
    ∧ ((registerAdmission st now s).limited = true ↔ 50 < (registerAdmission st now s).count) := by
  refine ⟨rfl, rfl, ?_, ?_⟩ <;> simp [lookupAdmission, registerAdmission]

/-- C6 counterexample: incrementing "trace" at second 0 stores expiry 60, but
a second increment of the same window at second 30 (count 2) resets the
expiry to 90 — the expiry is rewritten on every increment, not only on the
first of the window, so the counter does not expire 60 seconds after the
window opened. -/
theorem c6_counterexample :
    expiryOf (incrementRateLimit [] 0 "trace" 60).1 ("rate_limit:" ++ "trace") = some 60
    ∧ (incrementRateLimit (incrementRateLimit [] 0 "trace" 60).1 30 "trace" 60).2 = 2
    ∧ expiryOf (incrementRateLimit (incrementRateLimit [] 0 "trace" 60).1 30 "trace" 60).1
        ("rate_limit:" ++ "trace") = some 90
    ∧ expiryOf (incrementRateLimit (incrementRateLimit [] 0 "trace" 60).1 30 "trace" 60).1
        ("rate_limit:" ++ "trace") ≠ some 60 := by
  decide

/-- C6 (amended): each admission call atomically increments the window-scoped
counter and returns the incremented count (1 on an absent or expired key),
and it sets the counter's 60-second expiry on every increment — so the
counter always carries an expiry of 60 seconds from the call's own time, and
the stored count is live immediately after the call. -/
theorem c6_increment_and_expiry (st : CounterStore) (now : Nat) (identifier : String) :
    ((incrementRateLimit st now identifier 60).2 =
      match getLive st now ("rate_limit:" ++ identifier) with
      | some c => c + 1
      | none => 1)
    ∧ getLive (incrementRateLimit st now identifier 60).1 now ("rate_limit:" ++ identifier)
        = some (incrementRateLimit st now identifier 60).2
    ∧ expiryOf (incrementRateLimit st now identifier 60).1 ("rate_limit:" ++ identifier)
        = some (now + 60) := by
  refine ⟨rfl, ?_, ?_⟩
  · simp [incrementRateLimit, setEntry, getLive, List.find?]
  · simp [incrementRateLimit, setEntry, expiryOf, List.find?]

/-- Helper: the ids reported by the registration fold are exactly those of
the records whose own insert succeeded, in batch order. -/
theorem registerFold_hash_ids (src : String) :
    ∀ (items : List (HashRegisterRequest × RecordEnv)) (st : RegState),
      (items.foldl (registerStep src) st).hash_ids
        = st.hash_ids ++ (okItems items).map (fun it => it.2.hashId) := by
  intro items
  induction items with
  | nil => intro st; simp [okItems]
  | cons a l ih =>
    intro st
    obtain ⟨req, env⟩ := a
    obtain ⟨hid, ca, outc, delf⟩ := env
    cases outc <;> cases delf <;>
      simp [List.foldl_cons, registerStep, createNewHashEntry, okItems,
        List.filter_cons, ih]

/-- Helper: the registered count is the number of records whose own insert
succeeded. -/
theorem registerFold_count (src : String) :
    ∀ (items : List (HashRegisterRequest × RecordEnv)) (st : RegState),
      (items.foldl (registerStep src) st).registered_count
        = st.registered_count + (okItems items).length := by
  intro items
  induction items with
  | nil => intro st; simp [okItems]
  | cons a l ih =>
    intro st
    obtain ⟨req, env⟩ := a
    obtain ⟨hid, ca, outc, delf⟩ := env
    cases outc <;> cases delf <;>
      simp [List.foldl_cons, registerStep, createNewHashEntry, okItems,
        List.filter_cons, ih] <;> omega

/-- Helper: error entries come exactly from records that were inserted but
whose cache invalidation raised. -/
theorem registerFold_errors (src : String) :
    ∀ (items : List (HashRegisterRequest × RecordEnv)) (st : RegState),
      (items.foldl (registerStep src) st).errors
        = st.errors ++ (errorItems items).map (fun it => registerErrorMsg it.1.hash_value) := by
  intro items
  induction items with
  | nil => intro st; simp [errorItems]
  | cons a l ih =>
    intro st
    obtain ⟨req, env⟩ := a
    obtain ⟨hid, ca, outc, delf⟩ := env
    cases outc <;> cases delf <;>
      simp [List.foldl_cons, registerStep, createNewHashEntry, errorItems,
        List.filter_cons, ih]

/-- Helper: the store gains exactly the rows of the records whose own insert
succeeded. -/
theorem registerFold_db (src : String) :
    ∀ (items : List (HashRegisterRequest × RecordEnv)) (st : RegState),
      (items.foldl (registerStep src) st).db
        = st.db ++ (okItems items).map (fun it => mkHashRecord it.1 src it.2) := by
  intro items
  induction items with
  | nil => intro st; simp [okItems]
  | cons a l ih =>
    intro st
    obtain ⟨req, env⟩ := a
    obtain ⟨hid, ca, outc, delf⟩ := env
    cases outc <;> cases delf <;>
      simp [List.foldl_cons, registerStep, createNewHashEntry, okItems,
        List.filter_cons, ih]

/-- C8 counterexample: in a 2-record batch whose first insert yields no row
and whose second succeeds, the second record is still registered
(independence holds), but the response carries no error entry for the failed
first record and even reports success=true — not one error entry per failed
record. -/
theorem c8_counterexample :
    (registerHashes "trace" [] []
      [({ hash_value := "aaaaaaaa", hash_type := "SHA256", source_id := "s1",
          severity := "medium", tags := [], metadata := [] },
        { hashId := "id1", createdAt := "t0", outcome := InsertOutcome.noData,
          delFails := false }),
       ({ hash_value := "bbbbbbbb", hash_type := "SHA256", source_id := "s2",
          severity := "medium", tags := [], metadata := [] },
        { hashId := "id2", createdAt := "t1", outcome := InsertOutcome.ok,
          delFails := false })]).2.registered_count = 1
    ∧ (registerHashes "trace" [] []
      [({ hash_value := "aaaaaaaa", hash_type := "SHA256", source_id := "s1",
          severity := "medium", tags := [], metadata := [] },
        { hashId := "id1", createdAt := "t0", outcome := InsertOutcome.noData,
          delFails := false }),
       ({ hash_value := "bbbbbbbb", hash_type := "SHA256", source_id := "s2",
          severity := "medium", tags := [], metadata := [] },
        { hashId := "id2", createdAt := "t1", outcome := InsertOutcome.ok,
          delFails := false })]).2.errors = []
    ∧ (registerHashes "trace" [] []
      [({ hash_value := "aaaaaaaa", hash_type := "SHA256", source_id := "s1",
          severity := "medium", tags := [], metadata := [] },
        { hashId := "id1", createdAt := "t0", outcome := InsertOutcome.noData,
          delFails := false }),
       ({ hash_value := "bbbbbbbb", hash_type := "SHA256", source_id := "s2",
          severity := "medium", tags := [], metadata := [] },
        { hashId := "id2", createdAt := "t1", outcome := InsertOutcome.ok,
          delFails := false })]).2.success = true := by
  constructor
  · rfl
  · constructor <;> rfl

/-- C8 (amended): batch registration processes each record independently —
the registered ids, count and inserted rows are exactly those of the records
whose own insert succeeded, regardless of the other records — but the
response is not a full per-record tally: a record whose insert fails is
skipped without an error entry, error entries arising only from records whose
cache invalidation raised, and success is reported exactly when no such error
entry exists. -/
theorem c8_per_record_outcomes (src : String) (db : List HashRecord) (cache : CacheState)
    (items : List (HashRegisterRequest × RecordEnv)) :
    (registerHashes src db cache items).2.hash_ids
      = (okItems items).map (fun it => it.2.hashId)
    ∧ (registerHashes src db cache items).2.registered_count = (okItems items).length
    ∧ (registerHashes src db cache items).2.errors
      = (errorItems items).map (fun it => registerErrorMsg it.1.hash_value)
    ∧ (registerHashes src db cache items).1.db
      = db ++ (okItems items).map (fun it => mkHashRecord it.1 src it.2)
    ∧ (registerHashes src db cache items).2.success
      = ((errorItems items).map (fun it => registerErrorMsg it.1.hash_value)).isEmpty := by
  unfold registerHashes
  simp only
  refine ⟨?_, ?_, ?_, ?_, ?_⟩
  · rw [registerFold_hash_ids src items]
    simp
  · rw [registerFold_count src items]
    simp
  · rw [registerFold_errors src items]
    simp
  · rw [registerFold_db src items]
  · rw [registerFold_errors src items]
    simp

/-- C9 counterexample: a raising cache read makes the whole lookup fail
(surfaced by the endpoint as HTTP 500), and a raising cache invalidation
flips a registration's reported outcome from success=true to success=false —
cache failures are not transparent to either operation. -/
theorem c9_counterexample :
    lookupHashes [] [] false (fun _ => { getFails := true, setFails := false })
      ["a1b2c3d4"] = Except.error "cache get failed"
    ∧ (registerHashes "trace" [] []
      [({ hash_value := "cccccccc", hash_type := "MD5", source_id := "s3",
          severity := "low", tags := [], metadata := [] },
        { hashId := "id3", createdAt := "t2", outcome := InsertOutcome.ok,
          delFails := true })]).2.success = false
    ∧ (registerHashes "trace" [] []
      [({ hash_value := "cccccccc", hash_type := "MD5", source_id := "s3",
          severity := "low", tags := [], metadata := [] },
        { hashId := "id3", createdAt := "t2", outcome := InsertOutcome.ok,
          delFails := false })]).2.success = true := by
  refine ⟨rfl, rfl, rfl⟩

/-- C9 (amended): cache failures do alter the surrounding operation on the
synchronous paths — a raising cache read aborts the lookup with an error,
and a raising cache invalidation during registration is caught per record
but recorded as an error entry (the row is still inserted and counted, yet
the response no longer reports success). -/
theorem c9_cache_failure_effects (src : String) (db : List HashRecord) (cache : CacheState)
    (im : Bool) (env : Nat → LookupEnv) (hv : String) (rest : List String)
    (req : HashRegisterRequest) (renv : RecordEnv)
    (hfail : (env 0).getFails = true)
    (hok : renv.outcome = InsertOutcome.ok)
    (hdel : renv.delFails = true) :
    lookupHashes db cache im env (hv :: rest) = Except.error "cache get failed"
    ∧ (registerHashes src db cache [(req, renv)]).2.success = false
    ∧ (registerHashes src db cache [(req, renv)]).2.errors
        = [registerErrorMsg req.hash_value]
    ∧ (registerHashes src db cache [(req, renv)]).2.registered_count = 1
    ∧ (registerHashes src db cache [(req, renv)]).1.db
        = db ++ [mkHashRecord req src renv] := by
  obtain ⟨hid, ca, outc, delf⟩ := renv
  simp only at hok hdel
  subst hok
  subst hdel
  refine ⟨?_, ?_, ?_, ?_, ?_⟩
  · unfold lookupHashes lookupGo
    rw [hfail]
    rfl
  all_goals
    simp [registerHashes, registerStep, createNewHashEntry]

/-- C9 witness: the amended statement evaluated on a concrete failing cache
environment and a concrete record. -/
theorem c9_cache_failure_effects_witness :
    lookupHashes [] [] false (fun _ => { getFails := true, setFails := false })
      ["dddddddd"] = Except.error "cache get failed"
    ∧ (registerHashes "grapnel" [] []
      [({ hash_value := "dddddddd", hash_type := "SHA256", source_id := "s4",
          severity := "high", tags := [], metadata := [] },
        { hashId := "id4", createdAt := "t3", outcome := InsertOutcome.ok,
          delFails := true })]).2.success = false
    ∧ (registerHashes "grapnel" [] []
      [({ hash_value := "dddddddd", hash_type := "SHA256", source_id := "s4",
          severity := "high", tags := [], metadata := [] },
        { hashId := "id4", createdAt := "t3", outcome := InsertOutcome.ok,
          delFails := true })]).2.errors
        = [registerErrorMsg "dddddddd"] := by
  have h := c9_cache_failure_effects "grapnel" [] [] false
    (fun _ => { getFails := true, setFails := false }) "dddddddd" []
    { hash_value := "dddddddd", hash_type := "SHA256", source_id := "s4",
      severity := "high", tags := [], metadata := [] }
    { hashId := "id4", createdAt := "t3", outcome := InsertOutcome.ok,
      delFails := true } rfl rfl rfl
  exact ⟨h.1, h.2.1, h.2.2.1⟩

/-- Helper: deleting a cache key makes the next read of that key miss. -/
theorem getCache_deleteCache (c : CacheState) (k : String) :
    getCache (deleteCache c k) k = none := by
  unfold getCache deleteCache
  rw [List.find?_eq_none.mpr]
  · rfl
  · intro x hx
    have hmem := (List.mem_filter.mp hx).2
    simp only [Bool.not_eq_true'] at hmem
    simp [hmem]

/-- Helper: a failure-free single-hash lookup that misses the cache queries
the store, caches the result and returns it as the only match. -/
theorem lookupHashes_single (db : List HashRecord) (cache : CacheState) (im : Bool)
    (c : String) (hmiss : getCache cache (hashLookupKey c) = none) :
    lookupHashes db cache im noFail [c]
      = Except.ok (setCache cache (hashLookupKey c) (queryHashFromDb db im c),
          { matchResults := [queryHashFromDb db im c]
            total_matches := ([queryHashFromDb db im c].filter (fun x => x.found)).length
            cached := false }) := by
  unfold lookupHashes lookupGo
  rw [hmiss]
  simp [noFail, lookupGo, Except.map]

/-- C7: round trip and normalization. Registering a valid raw hash value for
system `src` (admitted by the registration validator) and then looking the
same raw value up (admitted by the lookup validator) yields found=true with a
source entry for `src`; and two lookups whose raw spellings normalize to the
same cleaned value return identical results. -/
theorem c7_roundtrip_normalization (db : List HashRecord) (cache : CacheState)
    (im : Bool) (raw src s t : String) (req : HashRegisterRequest) (renv : RecordEnv)
    (hreg : validateRegisterValue raw = some req.hash_value)
    (hlook : (validateLookupHash raw).isSome = true)
    (hok : renv.outcome = InsertOutcome.ok)
    (hdel : renv.delFails = false)
    (hst : cleanHash s = cleanHash t) :
    (∃ m, lookupFirstMatch (registerHashes src db cache [(req, renv)]).1.db
        (registerHashes src db cache [(req, renv)]).1.cache im raw = some m
      ∧ m.found = true
      ∧ ∃ e, e ∈ m.sources ∧ e.system = src)
    ∧ lookupEndpoint db cache im noFail [s] = lookupEndpoint db cache im noFail [t] := by
  constructor
  · -- round trip
    have hv : req.hash_value = cleanHash raw := by
      unfold validateRegisterValue at hreg
      split at hreg
      · exact (Option.some.inj hreg).symm
      · exact absurd hreg (by simp)
    have hclen : (8 ≤ (cleanHash raw).length && (cleanHash raw).length ≤ 64) = true := by
      unfold validateLookupHash at hlook
      split at hlook
      · assumption
      · simp at hlook
    have hlv : validateLookupHash raw = some (cleanHash raw) := by
      unfold validateLookupHash
      rw [hclen]
      rfl
    obtain ⟨hid, ca, outc, delf⟩ := renv
    simp only at hok hdel
    subst hok
    subst hdel
    have hdb : (registerHashes src db cache
        [(req, { hashId := hid, createdAt := ca, outcome := InsertOutcome.ok,
                 delFails := false })]).1.db
        = db ++ [mkHashRecord req src
            { hashId := hid, createdAt := ca, outcome := InsertOutcome.ok,
              delFails := false }] := by
      simp [registerHashes, registerStep, createNewHashEntry]
    have hcache : (registerHashes src db cache
        [(req, { hashId := hid, createdAt := ca, outcome := InsertOutcome.ok,
                 delFails := false })]).1.cache
        = deleteCache cache (hashLookupKey req.hash_value) := by
      simp [registerHashes, registerStep, createNewHashEntry]
    rw [hdb, hcache, hv]
    set rec := mkHashRecord req src
      { hashId := hid, createdAt := ca, outcome := InsertOutcome.ok,
        delFails := false } with hrec
    have hrecv : rec.hash_value = cleanHash raw := by
      rw [hrec]
      simp [mkHashRecord, hv]
    have hval : validateLookupRequest [raw] = some [cleanHash raw] := by
      simp [validateLookupRequest, validateLookupHashes, hlv]
    have hrows : (db ++ [rec]).filter (fun r => r.hash_value == cleanHash raw)
        = db.filter (fun r => r.hash_value == cleanHash raw) ++ [rec] := by
      rw [List.filter_append]
      congr 1
      simp [List.filter_cons, hrecv]
    have hq : queryHashFromDb (db ++ [rec]) im (cleanHash raw)
        = { hash := cleanHash raw, found := true,
            sources := ((db.filter (fun r => r.hash_value == cleanHash raw)) ++ [rec]).map
              (mkSourceEntry im) } := by
      unfold queryHashFromDb
      rw [hrows]
      simp
    refine ⟨queryHashFromDb (db ++ [rec]) im (cleanHash raw), ?_, ?_, ?_⟩
    · unfold lookupFirstMatch lookupEndpoint
      rw [hval]
      simp only [Option.map_some']
      rw [lookupHashes_single _ _ _ _ (getCache_deleteCache cache (hashLookupKey (cleanHash raw)))]
      rfl
    · rw [hq]
    · rw [hq]
      refine ⟨mkSourceEntry im rec, ?_, ?_⟩
      · simp
      · rw [hrec]
        simp [mkSourceEntry, mkHashRecord]
  · -- normalization: identical results for raw spellings with one cleaning
    have hv2 : validateLookupHash s = validateLookupHash t := by
      unfold validateLookupHash
      rw [hst]
    unfold lookupEndpoint validateLookupRequest validateLookupHashes
    rw [hv2]
    rfl

/-- C7 witness: the round trip and the normalization equality evaluated on a
concrete empty store, the raw value "a1b2c3d4" and the spellings
" A1B2C3D4 " and "a1b2c3d4". -/
theorem c7_roundtrip_normalization_witness :
    (∃ m, lookupFirstMatch (registerHashes "trace" [] []
        [({ hash_value := "a1b2c3d4", hash_type := "PHASH", source_id := "s9",
            severity := "high", tags := [], metadata := [] },
          { hashId := "id9", createdAt := "t9", outcome := InsertOutcome.ok,
            delFails := false })]).1.db
        (registerHashes "trace" [] []
        [({ hash_value := "a1b2c3d4", hash_type := "PHASH", source_id := "s9",
            severity := "high", tags := [], metadata := [] },
          { hashId := "id9", createdAt := "t9", outcome := InsertOutcome.ok,
            delFails := false })]).1.cache false "a1b2c3d4" = some m
      ∧ m.found = true
      ∧ ∃ e, e ∈ m.sources ∧ e.system = "trace")
    ∧ lookupEndpoint [] [] false noFail [" A1B2C3D4 "]
        = lookupEndpoint [] [] false noFail ["a1b2c3d4"] :=
  c7_roundtrip_normalization [] [] false "a1b2c3d4" "trace" " A1B2C3D4 " "a1b2c3d4"
    { hash_value := "a1b2c3d4", hash_type := "PHASH", source_id := "s9",
      severity := "high", tags := [], metadata := [] }
    { hashId := "id9", createdAt := "t9", outcome := InsertOutcome.ok,
      delFails := false }
    (by decide) (by decide) rfl rfl (by decide)

end Grapnel
